import Mathlib

/-!
Verification development for the `crispy` repository (files
`crispy/crisp.py` and `crisPy2/inversions.py`).

The Python data model is shallowly embedded: headers become association
lists from strings to a small universe of header values, arrays become
opaque lists of rationals (their numeric content is never computed by the
repository itself), external library facilities (FITS/Zarr/HDF5 loaders,
the astropy WCS transforms on sliced WCS objects) become explicit function
parameters or uninterpreted function fields, and Python exceptions become
`Except String`.
-/

namespace Crispy

/-- Universe of values stored in an observation header.  Python headers mix
strings, ints, floats and sequences of numbers; floats are modelled as
rationals. -/
inductive HVal where
  | str (s : String)
  | int (n : Int)
  | rat (q : Rat)
  | intArr (l : List Int)
  | ratArr (l : List Rat)
  deriving DecidableEq, Repr

/-- A header is a Python dict from key strings to header values, modelled as
an association list in insertion order (Python dicts preserve it). -/
abbrev Header := List (String × HVal)

/-- Dict lookup: first matching key. -/
def hget : Header → String → Option HVal
  | [], _ => none
  | (k1, v) :: rest, k => if k1 = k then some v else hget rest k

/-- Dict assignment `d[k] = v`: update the existing entry in place, else
append at the end, as Python dicts do. -/
def hset : Header → String → HVal → Header
  | [], k, v => [(k, v)]
  | (k1, v1) :: rest, k, v =>
      if k1 = k then (k, v) :: rest else (k1, v1) :: hset rest k v

/-- Fold a list of assignments into a header (`for k, v in d.items(): h[k] = v`). -/
def hsets (h : Header) (l : List (String × HVal)) : Header :=
  l.foldl (fun acc p => hset acc p.1 p.2) h

theorem hget_hset_self (h : Header) (k : String) (v : HVal) :
    hget (hset h k v) k = some v := by
  induction h with
  | nil => simp [hset, hget]
  | cons p rest ih =>
      obtain ⟨k1, v1⟩ := p
      by_cases hk : k1 = k
      · simp [hset, hget, hk]
      · simp [hset, hget, hk, ih]

theorem hget_hset_ne (h : Header) (k k2 : String) (v : HVal) (hne : k2 ≠ k) :
    hget (hset h k v) k2 = hget h k2 := by
  induction h with
  | nil => simp [hset, hget, Ne.symm hne]
  | cons p rest ih =>
      obtain ⟨k1, v1⟩ := p
      by_cases hk : k1 = k
      · subst hk
        simp [hset, hget, Ne.symm hne]
      · simp [hset, hget, hk, ih]

theorem hget_hsets_notin (h : Header) (l : List (String × HVal)) (k : String)
    (hk : k ∉ l.map Prod.fst) : hget (hsets h l) k = hget h k := by
  induction l generalizing h with
  | nil => simp [hsets]
  | cons p rest ih =>
      obtain ⟨k1, v1⟩ := p
      simp only [List.map_cons, List.mem_cons] at hk
      push_neg at hk
      have step : hsets h ((k1, v1) :: rest) = hsets (hset h k1 v1) rest := by
        simp [hsets, List.foldl_cons]
      rw [step, ih (hset h k1 v1) hk.2, hget_hset_ne _ _ _ _ hk.1]

/-- Data arrays are opaque to the repository (their contents are produced and
consumed by external libraries); we model them as lists of rationals. -/
abbrev Arr := List Rat

/-- Python negative indexing `l[-k]` on a list (defined for `1 ≤ k ≤ len`). -/
def pyNegIdx {α : Type} (l : List α) (k : Nat) : Option α :=
  if 0 < k ∧ k ≤ l.length then l.get? (l.length - k) else none

/-- Whether `pat` starts the character list `s`. -/
def startsWithChars : List Char → List Char → Bool
  | [], _ => true
  | _ :: _, [] => false
  | a :: as, b :: bs => a = b && startsWithChars as bs

/-- Whether `pat` occurs as a contiguous run inside `s`. -/
def hasSubChars (pat : List Char) : List Char → Bool
  | [] => startsWithChars pat []
  | c :: rest => startsWithChars pat (c :: rest) || hasSubChars pat rest

/-- Python substring test `sub in s` for strings. -/
def containsSub (sub s : String) : Bool :=
  hasSubChars sub.toList s.toList

/-- Numpy rounding (round-half-to-even), as used by `np.round` and by
astropy when converting world coordinates back to integer array indices. -/
def roundHalfEven (q : Rat) : Int :=
  let f := ⌊q⌋
  let r := q - (f : Rat)
  if r < 1/2 then f
  else if 1/2 < r then f + 1
  else if f % 2 = 0 then f else f + 1

theorem roundHalfEven_intCast (n : Int) : roundHalfEven (n : Rat) = n := by
  simp [roundHalfEven]

/-! ## Construction (`CRISP.__init__`, `Inversion.__init__`, `CRISPSequence.__init__`) -/

/-- Model of an `ObjDict` / HDU-like container: a dict-like object exposing a
`header` mapping and a `data` array.  `keysList` records the container's own
top-level keys, which is what Python's `in` operator consults when the
constructor evaluates `".fits" in filename` on a dict-like argument. -/
structure ObjDictM where
  keysList : List String
  header : Header
  dataArr : Arr
  deriving Repr

/-- Model of a WCS object held by a wrapper.  The repository never computes
WCS math itself; the constructors only record where the WCS came from. -/
inductive WcsM where
  | fromFits (h : Header)
  | fromZarr (h : Header) (nonu : Bool)
  | given (tag : Nat)
  deriving Repr

/-- The `filename` argument of `CRISP.__init__`: a string, an `ObjDict`, or
any value of another type (the `else` branch of the constructor). -/
inductive CFileInput where
  | path (s : String)
  | obj (d : ObjDictM)
  | other
  deriving Repr

/-- Python `".fits" in filename`: substring test on a string, key-membership
test on a dict-like container. -/
def inputHasKeyOrSub (sub : String) : CFileInput → Bool
  | .path s => containsSub sub s
  | .obj d => d.keysList.contains sub
  | .other => false

/-- The header keys that mark a rotated/cropped frame (checked by the
constructor and patched by `rotate_crop`). -/
def cropKeys : List String :=
  ["frame_dims", "x_min", "x_max", "y_min", "y_max", "angle"]

/-- State of a constructed `CRISP` object (attributes set by `__init__`). -/
structure CRISPObj where
  file : ObjDictM
  wcs : Option WcsM
  nonu : Bool
  uncertainty : Option Arr
  mask : Option Arr
  rotate : Bool
  deriving Repr

/-- Model of `CRISP.__init__` (crisp.py lines 53-91).  `fitsOpen` and
`zarrOpen` stand for the external `fits.open(...)[0]` and `zarr.open`
loaders.  A FITS path is any string containing ".fits", a Zarr path any
string containing ".zarr"; an `ObjDict` is taken as the file directly; any
other value raises `NotImplementedError("m8 y?")`.  When the `wcs` argument
is `None` a WCS is built from the header iff `".fits" in filename` or
`".zarr" in filename` holds (substring test for paths, key test for
dict-likes). -/
def crispInit (fitsOpen zarrOpen : String → ObjDictM) (filename : CFileInput)
    (wcs : Option WcsM) (uncertainty mask : Option Arr) (nonu : Bool) :
    Except String CRISPObj := do
  let file ← match filename with
    | .path s =>
        if containsSub ".fits" s then Except.ok (fitsOpen s)
        else if containsSub ".zarr" s then Except.ok (zarrOpen s)
        else Except.error "NotImplementedError: m8 y?"
    | .obj d => Except.ok d
    | .other => Except.error "NotImplementedError: m8 y?"
  let wcsF :=
    if wcs.isNone ∧ inputHasKeyOrSub ".fits" filename then
      some (WcsM.fromFits file.header)
    else if wcs.isNone ∧ inputHasKeyOrSub ".zarr" filename then
      some (WcsM.fromZarr file.header nonu)
    else wcs
  Except.ok
    { file := file, wcs := wcsF, nonu := nonu, uncertainty := uncertainty,
      mask := mask,
      rotate := cropKeys.all (fun k => (hget file.header k).isSome) }

/-- A parameter dict for one element of a `CRISPSequence` (the keyword
arguments forwarded as `CRISP(**f)`). -/
structure CRISPParams where
  filename : CFileInput
  wcs : Option WcsM
  uncertainty : Option Arr
  mask : Option Arr
  nonu : Bool

/-- `CRISP(**f)` for one parameter dict. -/
def crispInitP (fitsOpen zarrOpen : String → ObjDictM) (f : CRISPParams) :
    Except String CRISPObj :=
  crispInit fitsOpen zarrOpen f.filename f.wcs f.uncertainty f.mask f.nonu

/-- Model of `CRISPSequence.__init__`: `self.list = [CRISP(**f) for f in files]`.
The comprehension constructs the wrappers left to right; the first exception
aborts the whole construction. -/
def initList (fitsOpen zarrOpen : String → ObjDictM) :
    List CRISPParams → Except String (List CRISPObj)
  | [] => Except.ok []
  | f :: fs => do
      let c ← crispInitP fitsOpen zarrOpen f
      let rest ← initList fitsOpen zarrOpen fs
      Except.ok (c :: rest)

/-- The `z` argument of `Inversion.__init__`: either a path string or an
already-loaded height array. -/
inductive ZVal where
  | val (a : Arr)
  | strV (s : String)
  deriving Repr

/-- Contents of an inversion container (HDF5 file or `ObjDict`) with the four
quantity arrays keyed "ne", "temperature", "vel", "mad". -/
structure InvDict where
  ne : Arr
  temp : Arr
  vel : Arr
  err : Arr
  deriving Repr

/-- The `filename` argument of `Inversion.__init__`. -/
inductive InvInput where
  | path (s : String)
  | obj (d : InvDict)
  | other
  deriving Repr

/-- Attributes of an `Inversion` after `__init__`.  Each field is `none` when
the corresponding attribute was never assigned (the constructor has no
`else` branch, so an unsupported `filename` leaves every attribute unset).
The `header` attribute stores the optional `header` argument, hence the
nested option. -/
structure InvObj where
  ne : Option Arr
  temp : Option Arr
  vel : Option Arr
  err : Option Arr
  wcs : Option WcsM
  z : Option ZVal
  header : Option (Option Header)
  deriving Repr

/-- Model of `Inversion.__init__` (inversions.py lines 9-29).  `h5Load` and
`zLoad` stand for the external `h5py.File` reads.  For a string the four
arrays are loaded from the file and `z` is itself loaded when given as a
path; for an `ObjDict` the arrays are taken from the dict and `z` is stored
as passed; for any other input the constructor falls through without raising
and without setting any attribute. -/
def inversionInit (h5Load : String → InvDict) (zLoad : String → Arr)
    (filename : InvInput) (wcs : WcsM) (z : ZVal) (header : Option Header) :
    Except String InvObj :=
  match filename with
  | .path s =>
      let d := h5Load s
      let zv : ZVal :=
        match z with
        | .strV zs => .val (zLoad zs)
        | .val a => .val a
      Except.ok
        { ne := some d.ne, temp := some d.temp, vel := some d.vel,
          err := some d.err, wcs := some wcs, z := some zv,
          header := some header }
  | .obj d =>
      Except.ok
        { ne := some d.ne, temp := some d.temp, vel := some d.vel,
          err := some d.err, wcs := some wcs, z := some z,
          header := some header }
  | .other =>
      Except.ok
        { ne := none, temp := none, vel := none, err := none,
          wcs := none, z := none, header := none }

/-! ## Frame effects (`CRISP.rotate_crop`, `CRISP.reconstruct_full_frame`) -/

/-- Modelled from the spec: the crop-metadata dictionary returned by
`crispy.utils.rotate_crop_data` (that module is not under `src/`).  Per the
spec and the callers in crisp.py it holds exactly the six keys
`frame_dims, x_min, x_max, y_min, y_max, angle` needed to reconstruct the
full frame. -/
structure CropDict where
  frame_dims : HVal
  x_min : HVal
  x_max : HVal
  y_min : HVal
  y_max : HVal
  angle : HVal

/-- The crop dict as the list of `(key, value)` items iterated by
`for k, v in crop_dict.items()`. -/
def CropDict.toItems (cd : CropDict) : List (String × HVal) :=
  [("frame_dims", cd.frame_dims), ("x_min", cd.x_min), ("x_max", cd.x_max),
   ("y_min", cd.y_min), ("y_max", cd.y_max), ("angle", cd.angle)]

/-- State of a `CRISP` wrapper relevant to the rotate/crop operations:
header, stored data array, the optional auxiliary attributes, and the
`full_frame` / `rot_data` attributes the two methods create. -/
structure CRISPFrame where
  header : Header
  dataArr : Arr
  uncertainty : Option Arr
  mask : Option Arr
  wcs : Option WcsM
  fullFrame : Option Arr
  rotData : Option Arr
  rotate : Bool

/-- Model of `CRISP.rotate_crop` (crisp.py lines 181-216), parametric in the
external `rotate_crop_data` routine (`rcd`, from `crispy.utils`, not under
`src/`).  With `sep=True` the rotated array and metadata are returned and
the object is untouched; with `sep=False` the original array is saved in
`full_frame`, each crop-dict item is written into the header, the stored
array is replaced by the crop, and `rotate` is set. -/
def rotateCrop (rcd : Arr → Arr × CropDict) (c : CRISPFrame) (sep : Bool) :
    CRISPFrame × Option (Arr × CropDict) :=
  if sep then (c, some (rcd c.dataArr))
  else
    let crop := (rcd c.dataArr).1
    let cd := (rcd c.dataArr).2
    ({ c with
        fullFrame := some c.dataArr,
        header := hsets c.header cd.toItems,
        dataArr := crop,
        rotate := true }, none)

/-- The crop-dict read back from the header by `reconstruct_full_frame`
(`{k: self.header[k] for k in [...]}`); `none` when a key is missing, in
which case Python raises `KeyError`. -/
def readCropDict (h : Header) : Option (List (String × HVal)) :=
  match hget h "frame_dims", hget h "x_min", hget h "x_max",
        hget h "y_min", hget h "y_max", hget h "angle" with
  | some a, some b, some c, some d, some e, some f =>
      some [("frame_dims", a), ("x_min", b), ("x_max", c),
            ("y_min", d), ("y_max", e), ("angle", f)]
  | _, _, _, _, _, _ => none

/-- Model of `CRISP.reconstruct_full_frame` (crisp.py lines 218-250),
parametric in the external `reconstruct_full_frame` routine of
`crispy.utils` (`rff`).  It asserts that `frame_dims` is in the header,
reads the six crop keys, and with `sep=False` saves the rotated array in
`rot_data`, replaces the stored array with the reconstructed full frame,
and clears `rotate`; the header is only read, never written. -/
def reconstructFullFrame (rff : List (String × HVal) → Arr → Arr)
    (c : CRISPFrame) (sep : Bool) : Except String (CRISPFrame × Option Arr) :=
  if (hget c.header "frame_dims").isNone then
    Except.error "AssertionError"
  else
    match readCropDict c.header with
    | none => Except.error "KeyError"
    | some cd =>
        if sep then Except.ok (c, some (rff cd c.dataArr))
        else
          Except.ok
            ({ c with
                rotData := some c.dataArr,
                dataArr := rff cd c.dataArr,
                rotate := false }, none)

/-! ## Metadata reading with fallback (`__str__`, `time`, `date`, titles)

Python's `try: ... except KeyError: ...` distinguishes a `KeyError` (caught,
triggering the fallback branch) from any other exception (propagated).  The
`PyRes` monad mirrors this three-way outcome. -/

/-- Result of evaluating a block of Python statements: success, a `KeyError`
for a named key, or some other exception carrying its message. -/
inductive PyRes (α : Type) where
  | ok (a : α)
  | keyErr (k : String)
  | exn (msg : String)

def PyRes.bind {α β : Type} : PyRes α → (α → PyRes β) → PyRes β
  | .ok a, f => f a
  | .keyErr k, _ => .keyErr k
  | .exn m, _ => .exn m

instance : Monad PyRes where
  pure := PyRes.ok
  bind := PyRes.bind

/-- `h[k]`: a missing key raises `KeyError`. -/
def getKey (h : Header) (k : String) : PyRes HVal :=
  match hget h k with
  | some v => .ok v
  | none => .keyErr k

/-- Require a string value (string concatenation on anything else raises
`TypeError`). -/
def asStr : HVal → PyRes String
  | .str s => .ok s
  | _ => .exn "TypeError: can only concatenate str"

/-- Python `v[-k:]` — keep the last `k` items.  Defined on strings and
sequences; slicing a number raises `TypeError`. -/
def hvalSliceLast (v : HVal) (k : Nat) : PyRes HVal :=
  match v with
  | .str s => .ok (.str (s.drop (s.length - k)))
  | .intArr l => .ok (.intArr (l.drop (l.length - k)))
  | .ratArr l => .ok (.ratArr (l.drop (l.length - k)))
  | _ => .exn "TypeError: object is not subscriptable"

/-- Python `v[:-k]` — drop the last `k` items. -/
def hvalDropLast (v : HVal) (k : Nat) : PyRes HVal :=
  match v with
  | .str s => .ok (.str (s.take (s.length - k)))
  | .intArr l => .ok (.intArr (l.take (l.length - k)))
  | .ratArr l => .ok (.ratArr (l.take (l.length - k)))
  | _ => .exn "TypeError: object is not subscriptable"

/-- Python `v[-k]` on a header value: sequence element, or the errors Python
raises (`IndexError` out of range, `TypeError` on numbers). -/
def hvalNegIdx (v : HVal) (k : Nat) : PyRes HVal :=
  match v with
  | .intArr l =>
      match pyNegIdx l k with
      | some n => .ok (.int n)
      | none => .exn "IndexError: list index out of range"
  | .ratArr l =>
      match pyNegIdx l k with
      | some q => .ok (.rat q)
      | none => .exn "IndexError: list index out of range"
  | .str s =>
      match pyNegIdx s.toList k with
      | some ch => .ok (.str (String.singleton ch))
      | none => .exn "IndexError: string index out of range"
  | _ => .exn "TypeError: object is not subscriptable"

/-- `np.round(v, 2)`: rounds numbers (half-to-even) to two decimals,
element-wise on numeric sequences, `TypeError` on strings. -/
def npRound2 : HVal → PyRes HVal
  | .int n => .ok (.int n)
  | .rat q => .ok (.rat ((roundHalfEven (q * 100) : Rat) / 100))
  | .intArr l => .ok (.intArr l)
  | .ratArr l => .ok (.ratArr (l.map fun q => ((roundHalfEven (q * 100) : Rat) / 100)))
  | .str _ => .exn "TypeError: type str does not support np.round"

/-- The `shape` entry of the summary: either a single header value (fallback
branch, `str(self.header["dimensions"])`) or the list of `NAXISj` values
(FITS branch). -/
inductive ShapeVal where
  | one (v : HVal)
  | listOf (l : List HVal)
  deriving Repr

/-- The pieces interpolated into the `CRISP.__str__` summary. -/
structure StrInfo where
  time : HVal
  date : HVal
  cl : HVal
  wwidth : HVal
  shape : ShapeVal
  el : HVal
  px : HVal
  py : HVal

/-- `[self.header[f"NAXIS{j+1}"] for j in reversed(range(ndim))]`. -/
def naxisShape (h : Header) (ndim : Nat) : PyRes (List HVal) :=
  (List.range ndim).reverse.mapM fun j => getKey h s!"NAXIS{j+1}"

/-- The `try` branch of `CRISP.__str__` (crisp.py lines 94-104), reading the
FITS-convention keys in source order. -/
def crispStrTry (h : Header) (ndim : Nat) : PyRes StrInfo := do
  let dav ← getKey h "DATE-AVG"
  let time ← hvalSliceLast dav 12
  let date ← hvalDropLast dav 13
  let tw ← getKey h "TWAVE1"
  let cl ← npRound2 tw
  let ww ← getKey h "WWIDTH1"
  let sh ← naxisShape h ndim
  let el ← getKey h "WDESC1"
  let px ← getKey h "CRVAL1"
  let py ← getKey h "CRVAL2"
  pure ⟨time, date, cl, ww, .listOf sh, el, px, py⟩

/-- The `except KeyError` branch of `CRISP.__str__` (crisp.py lines
105-113), reading the alternate-convention keys in source order. -/
def crispStrFallback (h : Header) : PyRes StrInfo := do
  let time ← getKey h "time_obs"
  let date ← getKey h "date_obs"
  let cv ← getKey h "crval"
  let cl ← hvalNegIdx cv 3
  let dims ← getKey h "dimensions"
  let ww ← hvalNegIdx dims 3
  let el ← getKey h "element"
  let px ← hvalNegIdx cv 1
  let py ← hvalNegIdx cv 2
  pure ⟨time, date, cl, ww, .one dims, el, px, py⟩

/-- Model of `CRISP.__str__`: a `KeyError` in the FITS branch falls back to
the alternate naming convention; any exception there (including a missing
alternate key) propagates. -/
def crispStr (h : Header) (ndim : Nat) : Except String StrInfo :=
  match crispStrTry h ndim with
  | .ok i => Except.ok i
  | .exn m => Except.error m
  | .keyErr _ =>
      match crispStrFallback h with
      | .ok i => Except.ok i
      | .exn m => Except.error m
      | .keyErr k => Except.error ("KeyError: " ++ k)

/-- Model of the `CRISP.time` property (crisp.py lines 161-169):
`DATE-AVG[-12:]`, falling back to `time_obs` on `KeyError`. -/
def crispTime (h : Header) : Except String HVal :=
  match (do let dav ← getKey h "DATE-AVG"; hvalSliceLast dav 12 : PyRes HVal) with
  | .ok v => Except.ok v
  | .exn m => Except.error m
  | .keyErr _ =>
      match hget h "time_obs" with
      | some v => Except.ok v
      | none => Except.error "KeyError: time_obs"

/-- Model of the `CRISP.date` property (crisp.py lines 171-179):
`DATE-AVG[:-13]`, falling back to `date_obs` on `KeyError`. -/
def crispDate (h : Header) : Except String HVal :=
  match (do let dav ← getKey h "DATE-AVG"; hvalDropLast dav 13 : PyRes HVal) with
  | .ok v => Except.ok v
  | .exn m => Except.error m
  | .keyErr _ =>
      match hget h "date_obs" with
      | some v => Except.ok v
      | none => Except.error "KeyError: date_obs"

/-- Title construction of `CRISP._plot_stokes` (crisp.py lines 346-351):
`(DATE-AVG, WDESC1)`, falling back on `KeyError` to
`(date_obs + "T" + time_obs, element)`; string concatenation requires
string-valued alternates. -/
def stokesTitle (h : Header) : Except String (HVal × HVal) :=
  match (do
      let d ← getKey h "DATE-AVG"
      let e ← getKey h "WDESC1"
      pure (d, e) : PyRes (HVal × HVal)) with
  | .ok p => Except.ok p
  | .exn m => Except.error m
  | .keyErr _ =>
      match (do
          let d ← getKey h "date_obs"
          let ds ← asStr d
          let t ← getKey h "time_obs"
          let ts ← asStr t
          let e ← getKey h "element"
          pure (HVal.str (ds ++ "T" ++ ts), e) : PyRes (HVal × HVal)) with
      | .ok p => Except.ok p
      | .exn m => Except.error m
      | .keyErr k => Except.error ("KeyError: " ++ k)

/-- Datetime of the map titles (`intensity_map` / `stokes_map`): `DATE-AVG`,
falling back on `KeyError` to `date_obs + "T" + time_obs`. -/
def mapTitleDatetime (h : Header) : Except String HVal :=
  match hget h "DATE-AVG" with
  | some v => Except.ok v
  | none =>
      match (do
          let d ← getKey h "date_obs"
          let ds ← asStr d
          let t ← getKey h "time_obs"
          let ts ← asStr t
          pure (HVal.str (ds ++ "T" ++ ts)) : PyRes HVal) with
      | .ok v => Except.ok v
      | .exn m => Except.error m
      | .keyErr k => Except.error ("KeyError: " ++ k)

/-! ## Coordinate conversions (`wave`, `to_lonlat`, `from_lonlat`)

The conversion methods are a fixed dispatch on the rank of
`self.wcs.low_level_wcs.array_shape`, on whether a slicing index `self.ind`
has been recorded, and on the number of axes of the underlying
`low_level_wcs._wcs`.  Each branch forwards to the WCS library on a fixed
sub-slice of the WCS.  The library transforms on those sub-slices are kept
uninterpreted (`world` / `worldInv` fields); the two-dimensional case, where
the claims need actual values, uses a linear WCS stub. -/

/-- One component of a recorded index: a `slice` or a plain integer (what
`isinstance(self.ind[j], slice)` distinguishes). -/
inductive PyIdx where
  | slice
  | idx (n : Int)
  deriving DecidableEq, Repr

/-- The components of a recorded `self.ind` tuple that the conversion
methods access: `ind[0]`, `ind[1]`, `ind[-2]`, `ind[-1]`.  (The slicing
mixin that records `self.ind` is not under `src/`; per the spec it records
the applied index/slice tuple.) -/
structure SlicedInd where
  i0 : PyIdx
  i1 : PyIdx
  im2 : PyIdx
  im1 : PyIdx
  deriving DecidableEq, Repr

/-- A linear two-dimensional WCS stub: `world = crval + cdelt * (pix - (crpix - 1))`
on each axis, axis 1 being longitude/Solar-X and axis 2 latitude/Solar-Y. -/
structure LinWcs2D where
  crpix1 : Rat
  crval1 : Rat
  cdelt1 : Rat
  crpix2 : Rat
  crval2 : Rat
  cdelt2 : Rat
  deriving Repr

def lonOfPix (w : LinWcs2D) (px : Int) : Rat :=
  w.crval1 + w.cdelt1 * ((px : Rat) - (w.crpix1 - 1))

def latOfPix (w : LinWcs2D) (py : Int) : Rat :=
  w.crval2 + w.cdelt2 * ((py : Rat) - (w.crpix2 - 1))

def pixOfLon (w : LinWcs2D) (lon : Rat) : Rat :=
  (lon - w.crval1) / w.cdelt1 + (w.crpix1 - 1)

def pixOfLat (w : LinWcs2D) (lat : Rat) : Rat :=
  (lat - w.crval2) / w.cdelt2 + (w.crpix2 - 1)

/-- The WCS sub-slice selected by `to_lonlat` / `from_lonlat` before
forwarding: named after the subscript applied to `low_level_wcs._wcs`
(`ll`) or to the high-level `self.wcs` (`hl`). -/
inductive WcsSel where
  | ll00ss   -- _wcs[0, 0, ind[-2], ind[-1]]   (both slices)
  | ll00s    -- _wcs[0, 0, ind[-2]]            (slice, int)
  | ll00cs   -- _wcs[0, 0, :, ind[-1]]         (int, slice)
  | ll00     -- _wcs[0, 0]                     (int, int)
  | hl00     -- self.wcs[0, 0]                 (no recorded index)
  | ll0ss    -- _wcs[0, ind[-2], ind[-1]]
  | ll0s     -- _wcs[0, ind[-2]]
  | ll0cs    -- _wcs[0, :, ind[-1]]
  | ll0      -- _wcs[0]
  | hl0      -- self.wcs[0]
  deriving DecidableEq, Repr

/-- The WCS sub-slice selected by `wave` before forwarding. -/
inductive WaveSel where
  | llInd1_00   -- _wcs[0, ind[1], 0, 0]
  | llAll_00    -- _wcs[0, :, 0, 0]
  | hlAll_00    -- self.wcs[0, :, 0, 0]
  | llInd0_00   -- _wcs[ind[0], 0, 0]
  | llAll3_00   -- _wcs[:, 0, 0]
  | hlDirect3   -- self.wcs.array_index_to_world(idx, 0, 0)[1]
  | hlDirect1   -- self.wcs.array_index_to_world(idx)
  deriving DecidableEq, Repr

/-- State of a `CRISP` wrapper as seen by the conversion and plotting
methods. `arrayShape` is `wcs.low_level_wcs.array_shape`, `naxis` is
`wcs.low_level_wcs._wcs.naxis`, `ind` is the recorded slicing index (absent
when `hasattr(self, "ind")` is false), `ndim` is `self.data.ndim` and
`rotate` the rotated-frame flag.  `wcs2d` is the celestial transform used
directly at rank 2; `world` and `worldInv` are the uninterpreted library
transforms on the selected sub-slices. -/
structure CRISPModel where
  ndim : Nat
  header : Header
  arrayShape : List Nat
  naxis : Nat
  ind : Option SlicedInd
  rotate : Bool
  wcs2d : LinWcs2D
  world : WcsSel → Int → Int → Rat × Rat
  worldInv : WcsSel → Rat × Rat → Int × Int

/-- Model of `CRISP.wave` (crisp.py lines 540-625): the rank dispatch,
returning which WCS sub-slice the wavelength lookup forwards to, or the
error raised. -/
def waveDispatch (c : CRISPModel) : Except String WaveSel :=
  if c.arrayShape.length = 4 then
    match c.ind with
    | some s =>
        match s.i1 with
        | .slice => Except.ok .llInd1_00
        | .idx _ => Except.ok .llAll_00
    | none => Except.ok .hlAll_00
  else if c.arrayShape.length = 3 then
    match c.ind with
    | some s =>
        if c.naxis = 4 then
          match s.i1 with
          | .slice => Except.ok .llInd1_00
          | .idx _ => Except.ok .llAll_00
        else
          match s.i0 with
          | .slice => Except.ok .llInd0_00
          | .idx _ => Except.ok .llAll3_00
    | none => Except.ok .hlDirect3
  else if c.arrayShape.length = 2 then
    match c.ind with
    | some _ =>
        if c.naxis = 4 then Except.ok .llAll_00
        else if c.naxis = 3 then Except.ok .llAll3_00
        else Except.error "IndexError: There is no spectral component to your data."
    | none => Except.error "IndexError: There is no spectral component to your data."
  else if c.arrayShape.length = 1 then Except.ok .hlDirect1
  else
    Except.error "NotImplementedError: This is way too many dimensions for me to handle. I am but a three-dimensional being."

/-- The four-way sub-slice choice shared by every rank-3/4 branch of
`to_lonlat` and `from_lonlat`: dispatch on whether `ind[-2]` and `ind[-1]`
are slices. -/
def selOfInd (s : SlicedInd) (bb bs cb ii : WcsSel) : WcsSel :=
  match s.im2, s.im1 with
  | .slice, .slice => bb
  | .slice, .idx _ => bs
  | .idx _, .slice => cb
  | .idx _, .idx _ => ii

/-- Model of `CRISP.to_lonlat` (crisp.py lines 627-929, default
`coord=False, unit=False` path; the `coord`/`unit` variants select the same
sub-slices).  Rank 4 and rank 3 forward to the library transform on the
selected sub-slice; rank 2 applies the WCS directly
(`self.wcs.array_index_to_world(y, x)`), returning
`(sc.Tx.value, sc.Ty.value)`; any other rank raises. -/
def toLonlat (c : CRISPModel) (y x : Int) : Except String (Rat × Rat) :=
  if c.arrayShape.length = 4 then
    match c.ind with
    | some s => Except.ok (c.world (selOfInd s .ll00ss .ll00s .ll00cs .ll00) y x)
    | none => Except.ok (c.world .hl00 y x)
  else if c.arrayShape.length = 3 then
    match c.ind with
    | some s =>
        if c.naxis = 4 then
          Except.ok (c.world (selOfInd s .ll00ss .ll00s .ll00cs .ll00) y x)
        else
          Except.ok (c.world (selOfInd s .ll0ss .ll0s .ll0cs .ll0) y x)
    | none => Except.ok (c.world .hl0 y x)
  else if c.arrayShape.length = 2 then
    Except.ok (lonOfPix c.wcs2d x, latOfPix c.wcs2d y)
  else Except.error "NotImplementedError: Too many or too little dimensions."

/-- Model of `CRISP.from_lonlat` (crisp.py lines 931-1024).  Rank 4 and
rank 3 forward the world coordinate to the library inverse on the selected
sub-slice; rank 2 applies the WCS stub inverse directly
(`self.wcs.world_to_array_index(sc)`), rounding to integer array indices
in `(y, x)` order; any other rank raises. -/
def fromLonlat (c : CRISPModel) (lon lat : Rat) : Except String (Int × Int) :=
  if c.arrayShape.length = 4 then
    match c.ind with
    | some s => Except.ok (c.worldInv (selOfInd s .ll00ss .ll00s .ll00cs .ll00) (lon, lat))
    | none => Except.ok (c.worldInv .hl00 (lon, lat))
  else if c.arrayShape.length = 3 then
    match c.ind with
    | some s =>
        if c.naxis = 4 then
          Except.ok (c.worldInv (selOfInd s .ll00ss .ll00s .ll00cs .ll00) (lon, lat))
        else
          Except.ok (c.worldInv (selOfInd s .ll0ss .ll0s .ll0cs .ll0) (lon, lat))
    | none => Except.ok (c.worldInv .hl0 (lon, lat))
  else if c.arrayShape.length = 2 then
    Except.ok (roundHalfEven (pixOfLat c.wcs2d lat), roundHalfEven (pixOfLon c.wcs2d lon))
  else Except.error "NotImplementedError: Too many or too little dimensions."

/-! ## Plotting dimensionality checks (`plot_spectrum`, `_plot_stokes`, `stokes_map`) -/

def stokesComponents : List String := ["I", "Q", "U", "V"]

/-- Model of `CRISP._plot_stokes` (crisp.py lines 312-390): title
construction with the key fallback, then the per-rank Stokes validation
(the actual rendering is an external plotting call).  On one-dimensional
data, a single valid component is required; on two-dimensional data,
"all" or a string of fewer than five valid component letters; for higher
ranks the method falls through without plotting or raising. -/
def plotStokesInner (c : CRISPModel) (stokes : String) : Except String Unit := do
  let _title ← stokesTitle c.header
  if c.ndim = 1 then
    if stokes ∈ stokesComponents then Except.ok ()
    else Except.error "ValueError: This is not a Stokes. Expected (I, Q, U, V)"
  else if c.ndim = 2 then
    if stokes = "all" then Except.ok ()
    else if stokes.length < 5 ∧
        stokes.toList.all (fun s => String.singleton s ∈ stokesComponents) then
      Except.ok ()
    else
      Except.error "ValueError: Not all Stokes components requested are valid (I, Q, U, V)."
  else Except.ok ()

/-- Model of `CRISP.plot_stokes` (crisp.py lines 279-310): computes the
wavelength grid via `wave` (which may raise) and forwards to
`_plot_stokes`. -/
def plotStokes (c : CRISPModel) (stokes : String) : Except String Unit := do
  let _w ← waveDispatch c
  plotStokesInner c stokes

/-- Model of `CRISP.plot_spectrum` (crisp.py lines 252-277): raises
`IndexError` unless the wrapped data is one-dimensional, then forwards to
`plot_stokes` with Stokes I. -/
def plotSpectrum (c : CRISPModel) : Except String Unit :=
  if c.ndim ≠ 1 then
    Except.error "IndexError: If you are using Stokes data please use the plot_stokes method."
  else plotStokes c "I"

/-- The arcsec-extent computation of the map methods: `CDELT1`/`CDELT2`
scaled by the spatial shape, falling back to `pixel_scale` on `KeyError`
(the arithmetic itself is total in Python and is abstracted; only key
presence decides success). -/
def extentCalc (h : Header) : Except String Unit :=
  match hget h "CDELT1", hget h "CDELT2" with
  | some _, some _ => Except.ok ()
  | _, _ =>
      match hget h "pixel_scale" with
      | some _ => Except.ok ()
      | none => Except.error "KeyError: pixel_scale"

/-- Model of `CRISP.stokes_map` (crisp.py lines 446-538).  The wavelength
annotation slices `low_level_wcs._wcs[0, :, 0, 0]` (requiring a four-axis
WCS) and indexes `self.ind[1]` (requiring a recorded integer index); the
title datetime falls back across the key conventions; then the
dimensionality check: on two-dimensional data exactly one valid Stokes
component, on three-dimensional data "all" or a combination of valid
letters. -/
def stokesMap (c : CRISPModel) (stokes : String) (frame : Option String) :
    Except String Unit :=
  if c.naxis ≠ 4 then
    Except.error "IndexError: too many indices for WCS slice"
  else
    match c.ind with
    | none => Except.error "AttributeError: object has no attribute ind"
    | some si =>
        match si.i1 with
        | .slice => Except.error "TypeError: slice cannot be interpreted as an integer index"
        | .idx _ =>
            match mapTitleDatetime c.header with
            | .error m => Except.error m
            | .ok _dt =>
                let frame1 := frame.getD "WCS"
                let frame2 := if frame1 = "WCS" ∧ c.rotate then "arcsec" else frame1
                match (if frame2 = "arcsec" then extentCalc c.header else Except.ok ()) with
                | .error m => Except.error m
                | .ok _ =>
                    if c.ndim = 2 then
                      if ¬(stokes.length = 1 ∧ stokes ∈ stokesComponents) then
                        Except.error "ValueError: For 2D data can only plot one Stokes component (expected I, Q, U, V)."
                      else Except.ok ()
                    else if c.ndim = 3 then
                      if stokes = "all" then Except.ok ()
                      else if stokes.toList.all
                          (fun s => String.singleton s ∈ stokesComponents) then
                        Except.ok ()
                      else
                        Except.error "ValueError: Not all Stokes components requested are valid (combination of I, Q, U, V expected)."
                    else Except.ok ()

/-! ## Sequence delegation (`CRISPSequence.to_lonlat`, `CRISPSequence.from_lonlat`) -/

/-- A `CRISPSequence` as seen by the coordinate methods: the ordered list of
wrapped observations. -/
structure CRISPSeqModel where
  list : List CRISPModel

/-- Model of `CRISPSequence.to_lonlat` (crisp.py lines 1361-1387):
`return self.list[0].to_lonlat(y, x)`; an empty sequence raises
`IndexError`. -/
def seqToLonlat (s : CRISPSeqModel) (y x : Int) : Except String (Rat × Rat) :=
  match s.list with
  | [] => Except.error "IndexError: list index out of range"
  | c :: _ => toLonlat c y x

/-- Model of `CRISPSequence.from_lonlat` (crisp.py lines 1337-1359):
`return self.list[0].from_lonlat(lon, lat)`. -/
def seqFromLonlat (s : CRISPSeqModel) (lon lat : Rat) : Except String (Int × Int) :=
  match s.list with
  | [] => Except.error "IndexError: list index out of range"
  | c :: _ => fromLonlat c lon lat

/-! ## Inversion methods (read-only access) -/

/-- A constructed `Inversion` with its quantity arrays, height axis, WCS,
optional header, and the slicing index `self.ind` recorded by the mixin
(absent before slicing). -/
structure Inversion where
  ne : Arr
  temp : Arr
  vel : Arr
  err : Arr
  z : Arr
  wcs : WcsM
  header : Option Header
  ind : Option Int

/-- Model of `Inversion.__str__` (inversions.py lines 31-44): a fixed string
when no header was given; otherwise the method reads `self.file.header`,
an attribute the class never sets, so it raises `AttributeError`. -/
def invStr (inv : Inversion) : Inversion × Except String String :=
  (inv,
    match inv.header with
    | none => Except.ok "You know more about this data than me, m8."
    | some _ => Except.error "AttributeError: Inversion object has no attribute file")

/-- Shared body of `plot_ne` / `plot_temp` / `plot_vel` / `plot_params`
(inversions.py lines 46-139): the point annotation first requires the
recorded index `self.ind` (`AttributeError` when absent) and then evaluates
`x << u.arcsec` where the name `u` is never imported in inversions.py, so
the methods raise `NameError`; the arrays are only ever read. -/
def invPlotPoint (inv : Inversion) : Except String Unit :=
  match inv.ind with
  | none => Except.error "AttributeError: Inversion object has no attribute ind"
  | some _ => Except.error "NameError: name u is not defined"

def plotNe (inv : Inversion) : Inversion × Except String Unit :=
  (inv, invPlotPoint inv)

def plotTemp (inv : Inversion) : Inversion × Except String Unit :=
  (inv, invPlotPoint inv)

def plotVel (inv : Inversion) : Inversion × Except String Unit :=
  (inv, invPlotPoint inv)

def plotParams (inv : Inversion) : Inversion × Except String Unit :=
  (inv, invPlotPoint inv)

/-- Shared body of the map methods (`ne_map`, `temp_map`, `vel_map`,
`params_map`, inversions.py lines 141-269): the height annotation
`np.round(self.z[self.ind], 2)` requires the recorded index and an in-range
height entry, and the title datetime uses `DATE-AVG` with the
`date-obs`/`time-obs` fallback; everything else is reading arrays into the
plotting library. -/
def invMapRun (inv : Inversion) : Except String (Rat × HVal) := do
  let i ← match inv.ind with
    | none => Except.error "AttributeError: Inversion object has no attribute ind"
    | some i => Except.ok i
  let height ← match (if 0 ≤ i then inv.z.get? i.toNat else pyNegIdx inv.z (-i).toNat) with
    | some q => Except.ok ((roundHalfEven (q * 100) : Rat) / 100)
    | none => Except.error "IndexError: index out of range"
  let dt ← match inv.header with
    | none => Except.ok (HVal.str "")
    | some h =>
        match hget h "DATE-AVG" with
        | some v => Except.ok v
        | none =>
            match hget h "date-obs", hget h "time-obs" with
            | some (.str d), some (.str t) => Except.ok (HVal.str (d ++ "T" ++ t))
            | some _, _ => Except.error "KeyError or TypeError in fallback datetime"
            | none, _ => Except.error "KeyError: date-obs"
  Except.ok (height, dt)

def neMap (inv : Inversion) : Inversion × Except String (Rat × HVal) :=
  (inv, invMapRun inv)

def tempMap (inv : Inversion) : Inversion × Except String (Rat × HVal) :=
  (inv, invMapRun inv)

def velMap (inv : Inversion) : Inversion × Except String (Rat × HVal) :=
  (inv, invMapRun inv)

def paramsMap (inv : Inversion) : Inversion × Except String (Rat × HVal) :=
  (inv, invMapRun inv)

/-! ## Helper lemmas -/

theorem except_bind_ok {α β : Type} (a : α) (f : α → Except String β) :
    (Except.ok a >>= f) = f a := rfl

theorem except_bind_error {α β : Type} (m : String) (f : α → Except String β) :
    ((Except.error m : Except String α) >>= f) = Except.error m := rfl

theorem pyres_bind_ok {α β : Type} (a : α) (f : α → PyRes β) :
    (PyRes.ok a >>= f) = f a := rfl

theorem pyres_bind_keyErr {α β : Type} (k : String) (f : α → PyRes β) :
    ((PyRes.keyErr k : PyRes α) >>= f) = PyRes.keyErr k := rfl

theorem pyres_bind_exn {α β : Type} (m : String) (f : α → PyRes β) :
    ((PyRes.exn m : PyRes α) >>= f) = PyRes.exn m := rfl

theorem pyNegIdx_of_le {α : Type} (l : List α) (k : Nat) (h1 : 0 < k)
    (h2 : k ≤ l.length) : ∃ a, pyNegIdx l k = some a := by
  have hlt : l.length - k < l.length := by omega
  exact ⟨l.get ⟨l.length - k, hlt⟩, by simp [pyNegIdx, h1, h2, List.get?_eq_get hlt]⟩

/-! ## Claims -/

/-- C7: the inversion result is read-only after construction — `__str__` and
every `plot_*` / `*_map` method of `Inversion` leaves the stored arrays
`ne`, `temp`, `vel`, `err` and the height axis `z` (indeed the whole
object state) unchanged. -/
theorem inversion_read_only (inv : Inversion) :
    (invStr inv).1 = inv ∧ (plotNe inv).1 = inv ∧ (plotTemp inv).1 = inv ∧
    (plotVel inv).1 = inv ∧ (plotParams inv).1 = inv ∧ (neMap inv).1 = inv ∧
    (tempMap inv).1 = inv ∧ (velMap inv).1 = inv ∧ (paramsMap inv).1 = inv ∧
    (invStr inv).1.ne = inv.ne ∧ (invStr inv).1.temp = inv.temp ∧
    (invStr inv).1.vel = inv.vel ∧ (invStr inv).1.err = inv.err ∧
    (invStr inv).1.z = inv.z :=
  ⟨rfl, rfl, rfl, rfl, rfl, rfl, rfl, rfl, rfl, rfl, rfl, rfl, rfl, rfl⟩

/-- C10: `CRISPSequence.to_lonlat` and `CRISPSequence.from_lonlat` delegate
exclusively to element 0 of the sequence: on any non-empty sequence they
return exactly what the head observation returns, so replacing the tail
(elements 1..n-1) by any other list never changes the result. -/
theorem seq_lonlat_delegates (c : CRISPModel) (rest rest2 : List CRISPModel)
    (y x : Int) (lon lat : Rat) :
    seqToLonlat ⟨c :: rest⟩ y x = toLonlat c y x ∧
    seqToLonlat ⟨c :: rest⟩ y x = seqToLonlat ⟨c :: rest2⟩ y x ∧
    seqFromLonlat ⟨c :: rest⟩ lon lat = fromLonlat c lon lat ∧
    seqFromLonlat ⟨c :: rest⟩ lon lat = seqFromLonlat ⟨c :: rest2⟩ lon lat :=
  ⟨rfl, rfl, rfl, rfl⟩

/-- C2 (amended): an unsupported `filename` type (and a path string naming
neither a FITS nor a Zarr file) makes `CRISP.__init__` raise the generic
`NotImplementedError("m8 y?")`; `Inversion.__init__`, however, has no
`else` branch and for an unsupported input silently completes, producing an
object with none of its data attributes set. -/
theorem construction_unsupported_input
    (fo zo : String → ObjDictM) (w : Option WcsM) (u m : Option Arr) (n : Bool)
    (h5 : String → InvDict) (zl : String → Arr) (iw : WcsM) (iz : ZVal)
    (ih : Option Header) (s : String)
    (hf : containsSub ".fits" s = false) (hz : containsSub ".zarr" s = false) :
    crispInit fo zo .other w u m n = Except.error "NotImplementedError: m8 y?" ∧
    crispInit fo zo (.path s) w u m n = Except.error "NotImplementedError: m8 y?" ∧
    inversionInit h5 zl .other iw iz ih =
      Except.ok ⟨none, none, none, none, none, none, none⟩ := by
  refine ⟨rfl, ?_, rfl⟩
  simp [crispInit, hf, hz, except_bind_error]

theorem construction_unsupported_input_witness :
    crispInit (fun _ => ⟨[], [], []⟩) (fun _ => ⟨[], [], []⟩) .other none none none false
      = Except.error "NotImplementedError: m8 y?" ∧
    crispInit (fun _ => ⟨[], [], []⟩) (fun _ => ⟨[], [], []⟩) (.path "obs.h5") none none none false
      = Except.error "NotImplementedError: m8 y?" ∧
    inversionInit (fun _ => ⟨[], [], [], []⟩) (fun _ => []) .other (.given 0) (.val []) none
      = Except.ok ⟨none, none, none, none, none, none, none⟩ :=
  construction_unsupported_input (fun _ => ⟨[], [], []⟩) (fun _ => ⟨[], [], []⟩)
    none none none false (fun _ => ⟨[], [], [], []⟩) (fun _ => []) (.given 0)
    (.val []) none "obs.h5" (by decide) (by decide)

/-- C2 counterexample: for an `Inversion` constructed from an input of
unsupported type, construction does not fail — the constructor completes
and yields an object (with no attribute set), contradicting the claim that
both classes reject unsupported input with an error. -/
theorem inversion_unsupported_silent_cex :
    inversionInit (fun _ => ⟨[], [], [], []⟩) (fun _ => []) .other (.given 0) (.val []) none
      = Except.ok ⟨none, none, none, none, none, none, none⟩ ∧
    (inversionInit (fun _ => ⟨[], [], [], []⟩) (fun _ => []) .other (.given 0) (.val []) none).isOk
      = true :=
  ⟨rfl, rfl⟩

/-- C9 (amended): constructing a `CRISP` from an in-memory `ObjDict` with
`wcs=None` leaves the `wcs` attribute `None` provided the container has no
top-level key named ".fits" or ".zarr"; if it does contain such a key, the
membership test `".fits" in filename` succeeds on the dict and a WCS is
built from the container's header. -/
theorem objdict_wcs_none (fo zo : String → ObjDictM) (d : ObjDictM)
    (u m : Option Arr) (n : Bool)
    (hf : ".fits" ∉ d.keysList)
    (hz : ".zarr" ∉ d.keysList) :
    crispInit fo zo (.obj d) none u m n =
      Except.ok
        { file := d, wcs := none, nonu := n, uncertainty := u, mask := m,
          rotate := cropKeys.all (fun k => (hget d.header k).isSome) } := by
  simp [crispInit, inputHasKeyOrSub, hf, hz, except_bind_ok]

theorem objdict_wcs_none_witness :
    crispInit (fun _ => ⟨[], [], []⟩) (fun _ => ⟨[], [], []⟩)
        (.obj ⟨["data", "header"], [], []⟩) none none none false =
      Except.ok
        { file := ⟨["data", "header"], [], []⟩, wcs := none, nonu := false,
          uncertainty := none, mask := none,
          rotate := cropKeys.all (fun k => (hget ([] : Header) k).isSome) } :=
  objdict_wcs_none (fun _ => ⟨[], [], []⟩) (fun _ => ⟨[], [], []⟩)
    ⟨["data", "header"], [], []⟩ none none false (by decide) (by decide)

/-- C9 counterexample: an `ObjDict` whose keys include ".fits", passed with
`wcs=None`, yields a wrapper whose `wcs` attribute is a WCS constructed
from the container's header — not `None` as the claim states. -/
theorem objdict_wcs_none_cex :
    crispInit (fun _ => ⟨[".fits"], [], []⟩) (fun _ => ⟨[".fits"], [], []⟩)
        (.obj ⟨[".fits"], [], []⟩) none none none false =
      Except.ok
        { file := ⟨[".fits"], [], []⟩, wcs := some (WcsM.fromFits []),
          nonu := false, uncertainty := none, mask := none, rotate := false } ∧
    some (WcsM.fromFits []) ≠ (none : Option WcsM) :=
  ⟨rfl, by simp⟩

/-- C8: `CRISPSequence.__init__` builds, from a list of n parameter dicts
that each construct successfully, an ordered list of exactly n wrappers in
which the i-th wrapper is the one constructed from the i-th dict. -/
theorem sequence_init_order (fo zo : String → ObjDictM) (files : List CRISPParams)
    (h : ∀ f ∈ files, (crispInitP fo zo f).isOk = true) :
    ∃ l, initList fo zo files = Except.ok l ∧ l.length = files.length ∧
      ∀ i : Nat, l.get? i = (files.get? i).bind (fun f => (crispInitP fo zo f).toOption) := by
  induction files with
  | nil => exact ⟨[], rfl, rfl, fun i => by simp [initList]⟩
  | cons f fs ih =>
      have hf := h f (List.mem_cons_self f fs)
      obtain ⟨c, hc⟩ : ∃ c, crispInitP fo zo f = Except.ok c := by
        cases hcf : crispInitP fo zo f with
        | ok c => exact ⟨c, rfl⟩
        | error e => rw [hcf] at hf; simp [Except.isOk, Except.toBool] at hf
      obtain ⟨l, hl, hlen, hidx⟩ := ih (fun g hg => h g (List.mem_cons_of_mem f hg))
      refine ⟨c :: l, ?_, by simp [hlen], ?_⟩
      · simp [initList, hc, hl, except_bind_ok]
      · intro i
        cases i with
        | zero => simp [hc, Except.toOption]
        | succ j => simpa using hidx j

theorem sequence_init_order_witness :
    ∃ l, initList (fun _ => ⟨[], [], []⟩) (fun _ => ⟨[], [], []⟩)
          [⟨.obj ⟨[], [], []⟩, none, none, none, false⟩,
           ⟨.obj ⟨["k"], [], []⟩, some (.given 3), none, none, true⟩] = Except.ok l ∧
      l.length = ([⟨.obj ⟨[], [], []⟩, none, none, none, false⟩,
           ⟨.obj ⟨["k"], [], []⟩, some (.given 3), none, none, true⟩] : List CRISPParams).length ∧
      ∀ i : Nat, l.get? i =
        (([⟨.obj ⟨[], [], []⟩, none, none, none, false⟩,
           ⟨.obj ⟨["k"], [], []⟩, some (.given 3), none, none, true⟩] : List CRISPParams).get? i).bind
          (fun f => (crispInitP (fun _ => ⟨[], [], []⟩) (fun _ => ⟨[], [], []⟩) f).toOption) :=
  sequence_init_order (fun _ => ⟨[], [], []⟩) (fun _ => ⟨[], [], []⟩)
    [⟨.obj ⟨[], [], []⟩, none, none, none, false⟩,
     ⟨.obj ⟨["k"], [], []⟩, some (.given 3), none, none, true⟩]
    (by intro f hf; fin_cases hf <;> rfl)

theorem pixOfLon_lonOfPix (w : LinWcs2D) (hd : w.cdelt1 ≠ 0) (px : Int) :
    pixOfLon w (lonOfPix w px) = (px : Rat) := by
  unfold pixOfLon lonOfPix
  field_simp

theorem pixOfLat_latOfPix (w : LinWcs2D) (hd : w.cdelt2 ≠ 0) (py : Int) :
    pixOfLat w (latOfPix w py) = (py : Rat) := by
  unfold pixOfLat latOfPix
  field_simp

/-- C1: on a wrapper whose WCS has a two-dimensional array shape (with a
non-degenerate linear WCS stub) and any in-range integer pixel pair
`(y, x)`, `from_lonlat` applied to the longitude/latitude pair returned by
`to_lonlat(y, x)` recovers exactly the original indices `(y, x)`. -/
theorem lonlat_roundtrip (c : CRISPModel) (y x : Int)
    (h2 : c.arrayShape.length = 2)
    (hd1 : c.wcs2d.cdelt1 ≠ 0) (hd2 : c.wcs2d.cdelt2 ≠ 0)
    (hy0 : 0 ≤ y) (hy1 : y < (c.arrayShape.getD 0 0 : Int))
    (hx0 : 0 ≤ x) (hx1 : x < (c.arrayShape.getD 1 0 : Int)) :
    ∃ lon lat : Rat, toLonlat c y x = Except.ok (lon, lat) ∧
      fromLonlat c lon lat = Except.ok (y, x) := by
  have h4 : c.arrayShape.length ≠ 4 := by omega
  have h3 : c.arrayShape.length ≠ 3 := by omega
  refine ⟨lonOfPix c.wcs2d x, latOfPix c.wcs2d y, ?_, ?_⟩
  · simp [toLonlat, h4, h3, h2]
  · simp [fromLonlat, h4, h3, h2, pixOfLat_latOfPix c.wcs2d hd2,
      pixOfLon_lonOfPix c.wcs2d hd1, roundHalfEven_intCast]

theorem lonlat_roundtrip_witness :
    ∃ lon lat : Rat,
      toLonlat
          { ndim := 2, header := [], arrayShape := [4, 6], naxis := 2,
            ind := none, rotate := false, wcs2d := ⟨1, 0, 1, 1, 0, 1⟩,
            world := fun _ _ _ => (0, 0), worldInv := fun _ _ => (0, 0) }
          2 3 = Except.ok (lon, lat) ∧
      fromLonlat
          { ndim := 2, header := [], arrayShape := [4, 6], naxis := 2,
            ind := none, rotate := false, wcs2d := ⟨1, 0, 1, 1, 0, 1⟩,
            world := fun _ _ _ => (0, 0), worldInv := fun _ _ => (0, 0) }
          lon lat = Except.ok (2, 3) :=
  lonlat_roundtrip
    { ndim := 2, header := [], arrayShape := [4, 6], naxis := 2,
      ind := none, rotate := false, wcs2d := ⟨1, 0, 1, 1, 0, 1⟩,
      world := fun _ _ _ => (0, 0), worldInv := fun _ _ => (0, 0) }
    2 3 (by decide) (by decide) (by decide) (by decide) (by decide)
    (by decide) (by decide)

/-- C6: the conversion methods implement exactly the fixed rank table —
`wave` succeeds on WCS array-shape ranks 1, 3 and 4, raises
`NotImplementedError` above rank 4, and within rank 2 succeeds exactly when
a slicing index is recorded and the underlying WCS has 3 or 4 axes (raising
the "no spectral component" `IndexError` otherwise); `to_lonlat` and
`from_lonlat` succeed on ranks 2 through 4 and raise for any other rank. -/
theorem wcs_rank_dispatch (c : CRISPModel) (y x : Int) (lon lat : Rat) :
    (5 ≤ c.arrayShape.length →
      waveDispatch c = Except.error "NotImplementedError: This is way too many dimensions for me to handle. I am but a three-dimensional being.") ∧
    (c.arrayShape.length = 1 ∨ c.arrayShape.length = 3 ∨ c.arrayShape.length = 4 →
      (waveDispatch c).isOk = true) ∧
    (c.arrayShape.length = 2 →
      ((waveDispatch c).isOk = true ↔ c.ind.isSome = true ∧ (c.naxis = 4 ∨ c.naxis = 3))) ∧
    (c.arrayShape.length = 2 → (c.ind = none ∨ (c.naxis ≠ 4 ∧ c.naxis ≠ 3)) →
      waveDispatch c = Except.error "IndexError: There is no spectral component to your data.") ∧
    (2 ≤ c.arrayShape.length → c.arrayShape.length ≤ 4 →
      (toLonlat c y x).isOk = true ∧ (fromLonlat c lon lat).isOk = true) ∧
    (c.arrayShape.length < 2 ∨ 5 ≤ c.arrayShape.length →
      toLonlat c y x = Except.error "NotImplementedError: Too many or too little dimensions." ∧
      fromLonlat c lon lat = Except.error "NotImplementedError: Too many or too little dimensions.") := by
  refine ⟨?_, ?_, ?_, ?_, ?_, ?_⟩
  · intro h5
    have e4 : c.arrayShape.length ≠ 4 := by omega
    have e3 : c.arrayShape.length ≠ 3 := by omega
    have e2 : c.arrayShape.length ≠ 2 := by omega
    have e1 : c.arrayShape.length ≠ 1 := by omega
    simp [waveDispatch, e4, e3, e2, e1]
  · rintro (h1 | h3 | h4)
    · have e4 : c.arrayShape.length ≠ 4 := by omega
      have e3 : c.arrayShape.length ≠ 3 := by omega
      have e2 : c.arrayShape.length ≠ 2 := by omega
      simp [waveDispatch, e4, e3, e2, h1, Except.isOk, Except.toBool]
    · have e4 : c.arrayShape.length ≠ 4 := by omega
      rcases hind : c.ind with _ | s
      · simp [waveDispatch, e4, h3, hind, Except.isOk, Except.toBool]
      · by_cases hn : c.naxis = 4
        · rcases hi : s.i1 with _ | n <;>
            simp [waveDispatch, e4, h3, hind, hn, hi, Except.isOk, Except.toBool]
        · rcases hi : s.i0 with _ | n <;>
            simp [waveDispatch, e4, h3, hind, hn, hi, Except.isOk, Except.toBool]
    · rcases hind : c.ind with _ | s
      · simp [waveDispatch, h4, hind, Except.isOk, Except.toBool]
      · rcases hi : s.i1 with _ | n <;>
          simp [waveDispatch, h4, hind, hi, Except.isOk, Except.toBool]
  · intro h2
    have e4 : c.arrayShape.length ≠ 4 := by omega
    have e3 : c.arrayShape.length ≠ 3 := by omega
    rcases hind : c.ind with _ | s
    · simp [waveDispatch, e4, e3, h2, hind, Except.isOk, Except.toBool]
    · by_cases hn4 : c.naxis = 4
      · simp [waveDispatch, e4, e3, h2, hind, hn4, Except.isOk, Except.toBool]
      · by_cases hn3 : c.naxis = 3 <;>
          simp [waveDispatch, e4, e3, h2, hind, hn4, hn3, Except.isOk, Except.toBool]
  · intro h2 hbad
    have e4 : c.arrayShape.length ≠ 4 := by omega
    have e3 : c.arrayShape.length ≠ 3 := by omega
    rcases hind : c.ind with _ | s
    · simp [waveDispatch, e4, e3, h2, hind]
    · rcases hbad with hb | ⟨hn4, hn3⟩
      · rw [hind] at hb; exact absurd hb (by simp)
      · simp [waveDispatch, e4, e3, h2, hind, hn4, hn3]
  · intro hlo hhi
    constructor
    · by_cases h4 : c.arrayShape.length = 4
      · rcases hind : c.ind with _ | s <;>
          simp [toLonlat, h4, hind, Except.isOk, Except.toBool]
      · by_cases h3 : c.arrayShape.length = 3
        · rcases hind : c.ind with _ | s
          · simp [toLonlat, h4, h3, hind, Except.isOk, Except.toBool]
          · by_cases hn : c.naxis = 4 <;>
              simp [toLonlat, h4, h3, hind, hn, Except.isOk, Except.toBool]
        · have h2 : c.arrayShape.length = 2 := by omega
          simp [toLonlat, h4, h3, h2, Except.isOk, Except.toBool]
    · by_cases h4 : c.arrayShape.length = 4
      · rcases hind : c.ind with _ | s <;>
          simp [fromLonlat, h4, hind, Except.isOk, Except.toBool]
      · by_cases h3 : c.arrayShape.length = 3
        · rcases hind : c.ind with _ | s
          · simp [fromLonlat, h4, h3, hind, Except.isOk, Except.toBool]
          · by_cases hn : c.naxis = 4 <;>
              simp [fromLonlat, h4, h3, hind, hn, Except.isOk, Except.toBool]
        · have h2 : c.arrayShape.length = 2 := by omega
          simp [fromLonlat, h4, h3, h2, Except.isOk, Except.toBool]
  · intro hout
    have e4 : c.arrayShape.length ≠ 4 := by omega
    have e3 : c.arrayShape.length ≠ 3 := by omega
    have e2 : c.arrayShape.length ≠ 2 := by omega
    exact ⟨by simp [toLonlat, e4, e3, e2], by simp [fromLonlat, e4, e3, e2]⟩

theorem wcs_rank_dispatch_witness :
    waveDispatch
        { ndim := 5, header := [], arrayShape := [1, 1, 1, 1, 1], naxis := 5,
          ind := none, rotate := false, wcs2d := ⟨1, 0, 1, 1, 0, 1⟩,
          world := fun _ _ _ => (0, 0), worldInv := fun _ _ => (0, 0) }
      = Except.error "NotImplementedError: This is way too many dimensions for me to handle. I am but a three-dimensional being." ∧
    waveDispatch
        { ndim := 2, header := [], arrayShape := [3, 3], naxis := 2,
          ind := none, rotate := false, wcs2d := ⟨1, 0, 1, 1, 0, 1⟩,
          world := fun _ _ _ => (0, 0), worldInv := fun _ _ => (0, 0) }
      = Except.error "IndexError: There is no spectral component to your data." :=
  ⟨(wcs_rank_dispatch
      { ndim := 5, header := [], arrayShape := [1, 1, 1, 1, 1], naxis := 5,
        ind := none, rotate := false, wcs2d := ⟨1, 0, 1, 1, 0, 1⟩,
        world := fun _ _ _ => (0, 0), worldInv := fun _ _ => (0, 0) }
      0 0 0 0).1 (by decide),
   (wcs_rank_dispatch
      { ndim := 2, header := [], arrayShape := [3, 3], naxis := 2,
        ind := none, rotate := false, wcs2d := ⟨1, 0, 1, 1, 0, 1⟩,
        world := fun _ _ _ => (0, 0), worldInv := fun _ _ => (0, 0) }
      0 0 0 0).2.2.2.1 (by decide) (Or.inl (by decide))⟩

/-- C4: plotting calls with mismatched dimensionality are rejected —
`plot_spectrum` raises whenever the wrapped data is not one-dimensional;
`stokes_map` on two-dimensional data raises whenever anything other than a
single valid Stokes component is requested; `_plot_stokes` on
two-dimensional data raises whenever a requested component (for a request
other than "all") is not one of I, Q, U, V. -/
theorem plotting_dim_errors (c : CRISPModel) (stokes : String) (frame : Option String) :
    (c.ndim ≠ 1 →
      plotSpectrum c = Except.error "IndexError: If you are using Stokes data please use the plot_stokes method.") ∧
    (c.ndim = 2 → ¬(stokes.length = 1 ∧ stokes ∈ stokesComponents) →
      (stokesMap c stokes frame).isOk = false) ∧
    (c.ndim = 2 → stokes ≠ "all" →
      (∃ ch ∈ stokes.toList, String.singleton ch ∉ stokesComponents) →
      (plotStokesInner c stokes).isOk = false) := by
  refine ⟨?_, ?_, ?_⟩
  · intro h1
    simp [plotSpectrum, h1]
  · intro h2 hbad
    unfold stokesMap
    by_cases hn : c.naxis = 4
    · rcases hind : c.ind with _ | si
      · simp [hn, hind, Except.isOk, Except.toBool]
      · rcases hi : si.i1 with _ | n
        · simp [hn, hind, hi, Except.isOk, Except.toBool]
        · cases hmt : mapTitleDatetime c.header with
          | error m => simp [hn, hind, hi, hmt, Except.isOk, Except.toBool]
          | ok v =>
              cases hex : (if (if (frame.getD "WCS") = "WCS" ∧ c.rotate then "arcsec"
                  else frame.getD "WCS") = "arcsec" then extentCalc c.header
                  else Except.ok ()) with
              | error m =>
                  simp only [hn, hind, hi, hmt, hex, if_neg, ite_not]
                  simp [Except.isOk, Except.toBool]
              | ok u =>
                  simp only [hn, hind, hi, hmt, hex, ite_not]
                  simp [h2, hbad, Except.isOk, Except.toBool]
    · simp [hn, Except.isOk, Except.toBool]
  · intro h2 hall hex
    unfold plotStokesInner
    cases ht : stokesTitle c.header with
    | error m => simp [ht, except_bind_error, Except.isOk, Except.toBool]
    | ok v =>
        have hne1 : c.ndim ≠ 1 := by omega
        have hcond : ¬(stokes.length < 5 ∧ ∀ x ∈ stokes.toList, String.singleton x ∈ stokesComponents) := by
          rintro ⟨-, hforall⟩
          obtain ⟨ch, hch, hnc⟩ := hex
          exact hnc (hforall ch hch)
        simp only [String.toList] at hcond
        simp [ht, except_bind_ok, hne1, h2, hall, hcond, Except.isOk, Except.toBool]

theorem plotting_dim_errors_witness :
    plotSpectrum
        { ndim := 3, header := [], arrayShape := [2, 2, 2], naxis := 3,
          ind := none, rotate := false, wcs2d := ⟨1, 0, 1, 1, 0, 1⟩,
          world := fun _ _ _ => (0, 0), worldInv := fun _ _ => (0, 0) }
      = Except.error "IndexError: If you are using Stokes data please use the plot_stokes method." ∧
    (stokesMap
        { ndim := 2, header := [], arrayShape := [2, 2], naxis := 4,
          ind := some ⟨.idx 0, .idx 0, .slice, .slice⟩, rotate := false,
          wcs2d := ⟨1, 0, 1, 1, 0, 1⟩,
          world := fun _ _ _ => (0, 0), worldInv := fun _ _ => (0, 0) }
        "QU" none).isOk = false ∧
    (plotStokesInner
        { ndim := 2, header := [], arrayShape := [2, 2], naxis := 4,
          ind := some ⟨.idx 0, .idx 0, .slice, .slice⟩, rotate := false,
          wcs2d := ⟨1, 0, 1, 1, 0, 1⟩,
          world := fun _ _ _ => (0, 0), worldInv := fun _ _ => (0, 0) }
        "IXV").isOk = false :=
  ⟨(plotting_dim_errors
      { ndim := 3, header := [], arrayShape := [2, 2, 2], naxis := 3,
        ind := none, rotate := false, wcs2d := ⟨1, 0, 1, 1, 0, 1⟩,
        world := fun _ _ _ => (0, 0), worldInv := fun _ _ => (0, 0) }
      "I" none).1 (by decide),
   (plotting_dim_errors
      { ndim := 2, header := [], arrayShape := [2, 2], naxis := 4,
        ind := some ⟨.idx 0, .idx 0, .slice, .slice⟩, rotate := false,
        wcs2d := ⟨1, 0, 1, 1, 0, 1⟩,
        world := fun _ _ _ => (0, 0), worldInv := fun _ _ => (0, 0) }
      "QU" none).2.1 (by decide) (by decide),
   (plotting_dim_errors
      { ndim := 2, header := [], arrayShape := [2, 2], naxis := 4,
        ind := some ⟨.idx 0, .idx 0, .slice, .slice⟩, rotate := false,
        wcs2d := ⟨1, 0, 1, 1, 0, 1⟩,
        world := fun _ _ _ => (0, 0), worldInv := fun _ _ => (0, 0) }
      "IXV" none).2.2 (by decide) (by decide)
     ⟨'X', by decide, by decide⟩⟩

theorem hsets_cons (h : Header) (p : String × HVal) (rest : List (String × HVal)) :
    hsets h (p :: rest) = hsets (hset h p.1 p.2) rest := by
  simp [hsets]

theorem cropDict_keys (cd : CropDict) : cd.toItems.map Prod.fst = cropKeys := rfl

/-- C3: `rotate_crop` with `sep=False` replaces the stored array with the
rotated crop (saving the original in `full_frame`) and patches exactly the
six crop-metadata header keys, leaving every other header entry and the
`uncertainty`, `mask` and `wcs` attributes unchanged; and
`reconstruct_full_frame` with `sep=False` replaces only the stored array
(saving the rotated one in `rot_data`) and leaves the whole header and the
auxiliary attributes unchanged.  Parametric in the external
`rotate_crop_data` (`rcd`) and `reconstruct_full_frame` (`rff`) routines of
`crispy.utils`. -/
theorem rotate_crop_frame_effect (rcd : Arr → Arr × CropDict)
    (rff : List (String × HVal) → Arr → Arr) (c : CRISPFrame) (k : String) :
    ((k ∉ cropKeys → hget (rotateCrop rcd c false).1.header k = hget c.header k) ∧
     (rotateCrop rcd c false).1.uncertainty = c.uncertainty ∧
     (rotateCrop rcd c false).1.mask = c.mask ∧
     (rotateCrop rcd c false).1.wcs = c.wcs ∧
     (rotateCrop rcd c false).1.fullFrame = some c.dataArr ∧
     (rotateCrop rcd c false).1.dataArr = (rcd c.dataArr).1 ∧
     (rotateCrop rcd c false).1.rotate = true ∧
     hget (rotateCrop rcd c false).1.header "frame_dims" = some (rcd c.dataArr).2.frame_dims ∧
     hget (rotateCrop rcd c false).1.header "x_min" = some (rcd c.dataArr).2.x_min ∧
     hget (rotateCrop rcd c false).1.header "x_max" = some (rcd c.dataArr).2.x_max ∧
     hget (rotateCrop rcd c false).1.header "y_min" = some (rcd c.dataArr).2.y_min ∧
     hget (rotateCrop rcd c false).1.header "y_max" = some (rcd c.dataArr).2.y_max ∧
     hget (rotateCrop rcd c false).1.header "angle" = some (rcd c.dataArr).2.angle) ∧
    (∀ c2 r, reconstructFullFrame rff c false = Except.ok (c2, r) →
      c2.header = c.header ∧ c2.uncertainty = c.uncertainty ∧ c2.mask = c.mask ∧
      c2.wcs = c.wcs ∧ c2.rotData = some c.dataArr ∧ c2.rotate = false ∧ r = none ∧
      ∃ cd, readCropDict c.header = some cd ∧ c2.dataArr = rff cd c.dataArr) := by
  constructor
  · have hrc : (rotateCrop rcd c false).1.header
        = hsets c.header (rcd c.dataArr).2.toItems := rfl
    refine ⟨?_, rfl, rfl, rfl, rfl, rfl, rfl, ?_, ?_, ?_, ?_, ?_, ?_⟩
    · intro hk
      rw [hrc, hget_hsets_notin]
      rw [cropDict_keys]
      exact hk
    all_goals
      rw [hrc]
      simp only [CropDict.toItems, hsets_cons, hsets]
      simp only [List.foldl_cons, List.foldl_nil]
      repeat rw [hget_hset_ne _ _ _ _ (by decide)]
      exact hget_hset_self _ _ _
  · intro c2 r hrec
    unfold reconstructFullFrame at hrec
    by_cases hfd : (hget c.header "frame_dims").isNone
    · rw [if_pos hfd] at hrec
      exact absurd hrec (by simp)
    · rw [if_neg hfd] at hrec
      cases hcd : readCropDict c.header with
      | none => rw [hcd] at hrec; exact absurd hrec (by simp)
      | some cd =>
          rw [hcd] at hrec
          simp only [Bool.false_eq_true, if_false, Except.ok.injEq, Prod.mk.injEq] at hrec
          obtain ⟨hc2, hr⟩ := hrec
          subst hc2
          exact ⟨rfl, rfl, rfl, rfl, rfl, rfl, hr.symm, cd, rfl, rfl⟩

theorem rotate_crop_frame_effect_witness :
    hget
        (rotateCrop
          (fun a => (a, ⟨.intArr [2, 2], .int 0, .int 1, .int 0, .int 1, .rat 0⟩))
          { header := [("frame_dims", .intArr [2, 2]), ("x_min", .int 0),
              ("x_max", .int 1), ("y_min", .int 0), ("y_max", .int 1),
              ("angle", .rat 0), ("DATE-AVG", .str "2017-06-26T17:45")],
            dataArr := [1, 2], uncertainty := none, mask := none, wcs := none,
            fullFrame := none, rotData := none, rotate := true }
          false).1.header "DATE-AVG"
      = hget
          ([("frame_dims", .intArr [2, 2]), ("x_min", .int 0),
            ("x_max", .int 1), ("y_min", .int 0), ("y_max", .int 1),
            ("angle", .rat 0), ("DATE-AVG", .str "2017-06-26T17:45")] : Header)
          "DATE-AVG" ∧
    ({ header := [("frame_dims", .intArr [2, 2]), ("x_min", .int 0),
          ("x_max", .int 1), ("y_min", .int 0), ("y_max", .int 1),
          ("angle", .rat 0), ("DATE-AVG", .str "2017-06-26T17:45")],
        dataArr := [1, 2], uncertainty := none, mask := none, wcs := none,
        fullFrame := none, rotData := some [1, 2],
        rotate := false } : CRISPFrame).header
      = ([("frame_dims", .intArr [2, 2]), ("x_min", .int 0),
          ("x_max", .int 1), ("y_min", .int 0), ("y_max", .int 1),
          ("angle", .rat 0), ("DATE-AVG", .str "2017-06-26T17:45")] : Header) :=
  ⟨((rotate_crop_frame_effect
      (fun a => (a, ⟨.intArr [2, 2], .int 0, .int 1, .int 0, .int 1, .rat 0⟩))
      (fun _ a => a)
      { header := [("frame_dims", .intArr [2, 2]), ("x_min", .int 0),
          ("x_max", .int 1), ("y_min", .int 0), ("y_max", .int 1),
          ("angle", .rat 0), ("DATE-AVG", .str "2017-06-26T17:45")],
        dataArr := [1, 2], uncertainty := none, mask := none, wcs := none,
        fullFrame := none, rotData := none, rotate := true }
      "DATE-AVG").1.1 (by decide)),
   (((rotate_crop_frame_effect
      (fun a => (a, ⟨.intArr [2, 2], .int 0, .int 1, .int 0, .int 1, .rat 0⟩))
      (fun _ a => a)
      { header := [("frame_dims", .intArr [2, 2]), ("x_min", .int 0),
          ("x_max", .int 1), ("y_min", .int 0), ("y_max", .int 1),
          ("angle", .rat 0), ("DATE-AVG", .str "2017-06-26T17:45")],
        dataArr := [1, 2], uncertainty := none, mask := none, wcs := none,
        fullFrame := none, rotData := none, rotate := true }
      "DATE-AVG").2
      { header := [("frame_dims", .intArr [2, 2]), ("x_min", .int 0),
          ("x_max", .int 1), ("y_min", .int 0), ("y_max", .int 1),
          ("angle", .rat 0), ("DATE-AVG", .str "2017-06-26T17:45")],
        dataArr := [1, 2], uncertainty := none, mask := none, wcs := none,
        fullFrame := none, rotData := some [1, 2], rotate := false }
      none rfl).1)⟩

/-- C5 (amended): when the header lacks `DATE-AVG` (the FITS-convention
branch always aborts with `KeyError` on its first read) and the
alternate-convention keys are present and well-formed — `time_obs`,
`date_obs` and `element` present, `date_obs`/`time_obs` strings, `crval`
and `dimensions` numeric sequences of length at least 3 — then `__str__`,
the `time` and `date` properties and the plot-title constructions all
succeed and return results built from the alternate keys.  (Without the
well-formedness proviso the operations can still fail, see the
counterexample.) -/
theorem metadata_fallback (h : Header) (ndim : Nat)
    (hdav : hget h "DATE-AVG" = none)
    (ts ds : String) (cv : List Rat) (dm : List Int) (ev : HVal)
    (hts : hget h "time_obs" = some (.str ts))
    (hds : hget h "date_obs" = some (.str ds))
    (hcv : hget h "crval" = some (.ratArr cv)) (hcvl : 3 ≤ cv.length)
    (hdm : hget h "dimensions" = some (.intArr dm)) (hdml : 3 ≤ dm.length) :
    (hget h "element" = some ev →
      ∃ clq pxq pyq : Rat, ∃ wwn : Int,
        pyNegIdx cv 3 = some clq ∧ pyNegIdx dm 3 = some wwn ∧
        pyNegIdx cv 1 = some pxq ∧ pyNegIdx cv 2 = some pyq ∧
        crispStr h ndim =
          Except.ok ⟨.str ts, .str ds, .rat clq, .int wwn, .one (.intArr dm), ev,
            .rat pxq, .rat pyq⟩ ∧
        stokesTitle h = Except.ok (.str (ds ++ "T" ++ ts), ev)) ∧
    crispTime h = Except.ok (.str ts) ∧
    crispDate h = Except.ok (.str ds) ∧
    mapTitleDatetime h = Except.ok (.str (ds ++ "T" ++ ts)) := by
  obtain ⟨clq, hclq⟩ := pyNegIdx_of_le cv 3 (by omega) hcvl
  obtain ⟨pxq, hpxq⟩ := pyNegIdx_of_le cv 1 (by omega) (by omega)
  obtain ⟨pyq, hpyq⟩ := pyNegIdx_of_le cv 2 (by omega) (by omega)
  obtain ⟨wwn, hwwn⟩ := pyNegIdx_of_le dm 3 (by omega) hdml
  refine ⟨?_, ?_, ?_, ?_⟩
  · intro hev
    refine ⟨clq, pxq, pyq, wwn, hclq, hwwn, hpxq, hpyq, ?_, ?_⟩
    · have htry : crispStrTry h ndim = PyRes.keyErr "DATE-AVG" := by
        simp [crispStrTry, getKey, hdav, pyres_bind_keyErr]
      have hfb : crispStrFallback h =
          PyRes.ok ⟨.str ts, .str ds, .rat clq, .int wwn, .one (.intArr dm), ev,
            .rat pxq, .rat pyq⟩ := by
        simp [crispStrFallback, getKey, hts, hds, hcv, hdm, hev, hvalNegIdx,
          hclq, hwwn, hpxq, hpyq, pyres_bind_ok]
        rfl
      simp [crispStr, htry, hfb]
    · simp [stokesTitle, getKey, hdav, hts, hds, hev, asStr, pyres_bind_ok,
        pyres_bind_keyErr]
  · simp [crispTime, getKey, hdav, hts, pyres_bind_keyErr]
  · simp [crispDate, getKey, hdav, hds, pyres_bind_keyErr]
  · simp [mapTitleDatetime, getKey, hdav, hts, hds, asStr, pyres_bind_ok]

theorem metadata_fallback_witness :
    (hget
        ([("time_obs", .str "17:45:22"), ("date_obs", .str "2017-06-26"),
          ("crval", .ratArr [8542, -100, 50]),
          ("dimensions", .intArr [25, 100, 120]),
          ("element", .str "CaII")] : Header) "element" = some (.str "CaII") →
      ∃ clq pxq pyq : Rat, ∃ wwn : Int,
        pyNegIdx [(8542 : Rat), -100, 50] 3 = some clq ∧
        pyNegIdx [(25 : Int), 100, 120] 3 = some wwn ∧
        pyNegIdx [(8542 : Rat), -100, 50] 1 = some pxq ∧
        pyNegIdx [(8542 : Rat), -100, 50] 2 = some pyq ∧
        crispStr
          [("time_obs", .str "17:45:22"), ("date_obs", .str "2017-06-26"),
           ("crval", .ratArr [8542, -100, 50]),
           ("dimensions", .intArr [25, 100, 120]),
           ("element", .str "CaII")] 3 =
          Except.ok ⟨.str "17:45:22", .str "2017-06-26", .rat clq, .int wwn,
            .one (.intArr [25, 100, 120]), .str "CaII", .rat pxq, .rat pyq⟩ ∧
        stokesTitle
          [("time_obs", .str "17:45:22"), ("date_obs", .str "2017-06-26"),
           ("crval", .ratArr [8542, -100, 50]),
           ("dimensions", .intArr [25, 100, 120]),
           ("element", .str "CaII")] =
          Except.ok (.str ("2017-06-26" ++ "T" ++ "17:45:22"), .str "CaII")) ∧
    crispTime
        [("time_obs", .str "17:45:22"), ("date_obs", .str "2017-06-26"),
         ("crval", .ratArr [8542, -100, 50]),
         ("dimensions", .intArr [25, 100, 120]),
         ("element", .str "CaII")] = Except.ok (.str "17:45:22") ∧
    crispDate
        [("time_obs", .str "17:45:22"), ("date_obs", .str "2017-06-26"),
         ("crval", .ratArr [8542, -100, 50]),
         ("dimensions", .intArr [25, 100, 120]),
         ("element", .str "CaII")] = Except.ok (.str "2017-06-26") ∧
    mapTitleDatetime
        [("time_obs", .str "17:45:22"), ("date_obs", .str "2017-06-26"),
         ("crval", .ratArr [8542, -100, 50]),
         ("dimensions", .intArr [25, 100, 120]),
         ("element", .str "CaII")] =
      Except.ok (.str ("2017-06-26" ++ "T" ++ "17:45:22")) :=
  metadata_fallback
    [("time_obs", .str "17:45:22"), ("date_obs", .str "2017-06-26"),
     ("crval", .ratArr [8542, -100, 50]),
     ("dimensions", .intArr [25, 100, 120]),
     ("element", .str "CaII")] 3 (by decide)
    "17:45:22" "2017-06-26" [8542, -100, 50] [25, 100, 120] (.str "CaII")
    (by decide) (by decide) (by decide) (by decide) (by decide) (by decide)

/-- C5 counterexample: a wrapper whose header lacks the FITS-convention
keys can still fail — on the empty header (which certainly lacks
`DATE-AVG`, `TWAVE1`, `WDESC1`, `CRVAL1`, `CRVAL2`) `__str__` raises
`KeyError` on the alternate key `time_obs` rather than returning a result,
so "every metadata-reading operation does not fail" is false as stated. -/
theorem metadata_fallback_cex :
    hget ([] : Header) "DATE-AVG" = none ∧
    crispStr ([] : Header) 3 = Except.error "KeyError: time_obs" :=
  ⟨rfl, rfl⟩

end Crispy
